import Mathlib

/- Verification of the code-quality orchestration action.

Shallow embedding of the TypeScript sources:
  src/types.ts, src/main.ts, src/cache/CacheManager.ts, src/reporters/github.ts,
  src/config/resolver.ts, and the eight tool runners under src/runners/.

Modelling conventions:
  JavaScript nullable/optional values become Option; JavaScript string
  truthiness tests become explicit comparison against the empty string;
  JSON.parse is an external runtime primitive and is passed in as a function
  returning Option (none models a thrown parse error); the sha256 digest
  is likewise passed in as an abstract hash function; the filesystem is a
  predicate from paths to Bool. Regular-expression matching used by the
  EditorConfig runner and the TYPO3 Rector text fallback is implemented
  directly on character lists, following JavaScript regex semantics for the
  concrete patterns appearing in the sources. -/

namespace CodeQuality

/-- Severity of a normalized issue, from the Issue interface in src/types.ts. -/
inductive Severity
  | error
  | warning
deriving DecidableEq, Repr

/-- One normalized finding, from the Issue interface in src/types.ts. -/
structure Issue where
  file : String
  line : Nat
  column : Option Nat
  severity : Severity
  message : String
  rule : Option String
deriving DecidableEq, Repr

/-- Outcome of one tool invocation, from the ToolResult interface in src/types.ts. -/
structure ToolResult where
  tool : String
  success : Bool
  issues : List Issue
  rawOutput : String
deriving DecidableEq, Repr

/-- Captured outcome of an external command, from ExecResult in src/utils/exec.ts. -/
structure ExecResult where
  exitCode : Int
  stdout : String
  stderr : String
deriving DecidableEq, Repr

/-- Input contract of a single tool run, from RunnerConfig in src/types.ts. -/
structure RunnerConfig where
  configPath : Option String
  filePaths : List String
  workingDirectory : String
deriving DecidableEq, Repr

/-- The tool identifiers, from the ToolName union type in src/types.ts. -/
inductive ToolName
  | phpstan
  | phpmd
  | phpCsFixer
  | eslint
  | stylelint
  | editorconfig
  | composerNormalize
  | typo3Rector
deriving DecidableEq, Repr

/-- String form of a tool identifier as it appears in the ToolName union. -/
def toolIdString : ToolName → String
  | .phpstan => "phpstan"
  | .phpmd => "phpmd"
  | .phpCsFixer => "php-cs-fixer"
  | .eslint => "eslint"
  | .stylelint => "stylelint"
  | .editorconfig => "editorconfig"
  | .composerNormalize => "composer-normalize"
  | .typo3Rector => "typo3-rector"

/- ===== Cache manager (src/cache/CacheManager.ts) ===== -/

/-- Cache configuration, from the CacheConfig interface in src/cache/CacheManager.ts.
The field keyPrefixStr models the source field holding the cache key prefix string. -/
structure CacheConfig where
  enabled : Bool
  keyPrefixStr : String
  composerCache : Bool
  composerVendor : Bool
  npmCache : Bool
  nodeModules : Bool
deriving DecidableEq, Repr

/-- Ephemeral cache key value, from the CacheKeyInfo interface in src/cache/CacheManager.ts. -/
structure CacheKeyInfo where
  key : String
  restoreKeys : List String
  paths : List String
deriving DecidableEq, Repr

/-- Models node path.join for the separator-free segments used by the CacheManager. -/
def pathJoin (a b : String) : String := a ++ "/" ++ b

/-- Embeds CacheManager.generateComposerCacheKey. The hashFn argument models the
sha256 hex digest truncated to 8 characters; composerLock is the content of
composer.lock when that file exists, none otherwise; composerCacheDir models the
nullable composerCacheDir field, whose empty-string value is falsy in the source. -/
def generateComposerCacheKey (cfg : CacheConfig) (composerCacheDir : Option String)
    (hashFn : String → String) (workingDirectory platform : String)
    (composerLock : Option String) : CacheKeyInfo :=
  let cachePaths :=
    (if cfg.composerCache then
      match composerCacheDir with
      | some d => if d = "" then [] else [d]
      | none => []
     else []) ++
    (if cfg.composerVendor then [pathJoin workingDirectory "vendor"] else [])
  let lockHash :=
    match composerLock with
    | some content => hashFn content
    | none => "no-lock"
  { key := cfg.keyPrefixStr ++ "-" ++ platform ++ "-composer-" ++ lockHash,
    restoreKeys :=
      [cfg.keyPrefixStr ++ "-" ++ platform ++ "-composer-",
       cfg.keyPrefixStr ++ "-composer-"],
    paths := cachePaths }

/-- Lockfile state on disk for the JS ecosystem: each field holds the file content
when the corresponding lockfile exists in the working directory. -/
structure NpmLockState where
  pnpmLock : Option String
  yarnLock : Option String
  packageLock : Option String
deriving Repr

/-- Embeds CacheManager.generateNpmCacheKey, including the pnpm-then-yarn-then-npm
lockfile preference and the no-lock sentinel. -/
def generateNpmCacheKey (cfg : CacheConfig) (npmCacheDir : Option String)
    (hashFn : String → String) (workingDirectory platform : String)
    (locks : NpmLockState) : CacheKeyInfo :=
  let cachePaths :=
    (if cfg.npmCache then
      match npmCacheDir with
      | some d => if d = "" then [] else [d]
      | none => []
     else []) ++
    (if cfg.nodeModules then [pathJoin workingDirectory "node_modules"] else [])
  let hm : String × String :=
    match locks.pnpmLock with
    | some content => (hashFn content, "pnpm")
    | none =>
      match locks.yarnLock with
      | some content => (hashFn content, "yarn")
      | none =>
        match locks.packageLock with
        | some content => (hashFn content, "npm")
        | none => ("no-lock", "npm")
  { key := cfg.keyPrefixStr ++ "-" ++ platform ++ "-" ++ hm.2 ++ "-" ++ hm.1,
    restoreKeys :=
      [cfg.keyPrefixStr ++ "-" ++ platform ++ "-" ++ hm.2 ++ "-",
       cfg.keyPrefixStr ++ "-" ++ platform ++ "-",
       cfg.keyPrefixStr ++ "-"],
    paths := cachePaths }

/-- Proposition stating that the string a is a syntactic prefix of the string b. -/
def strLe (a b : String) : Prop := a.data <+: b.data

instance (a b : String) : Decidable (strLe a b) :=
  inferInstanceAs (Decidable (a.data <+: b.data))

/-- Proposition stating that a is a strict syntactic prefix of b. -/
def strLt (a b : String) : Prop := strLe a b ∧ a ≠ b

instance (a b : String) : Decidable (strLt a b) :=
  inferInstanceAs (Decidable (strLe a b ∧ a ≠ b))

/-- Process-wide key/value state persisted between the restore and save phases,
models the store behind core.saveState / core.getState. -/
abbrev CoreState := List (String × String)

/-- Models core.getState, which returns the empty string for a missing key. -/
def getState (st : CoreState) (k : String) : String :=
  match st.lookup k with
  | some v => v
  | none => ""

/-- Models core.saveState: later writes shadow earlier ones. -/
def saveState (st : CoreState) (k v : String) : CoreState := (k, v) :: st

/-- Embeds the state writes of CacheManager.restoreComposerCache. The cacheHit
argument is the value returned by the cache.restoreCache primitive; an empty
string is falsy in the source hit test. -/
def restoreComposerCacheState (st : CoreState) (keyInfo : CacheKeyInfo)
    (cacheHit : Option String) : CoreState :=
  if keyInfo.paths.length = 0 then st
  else
    match cacheHit with
    | some h =>
      if h = "" then
        saveState (saveState st "composer-cache-hit" "false") "composer-cache-key" keyInfo.key
      else
        saveState (saveState st "composer-cache-hit" "true") "composer-cache-key" keyInfo.key
    | none =>
      saveState (saveState st "composer-cache-hit" "false") "composer-cache-key" keyInfo.key

/-- Embeds the state writes of CacheManager.restoreNpmCache. -/
def restoreNpmCacheState (st : CoreState) (keyInfo : CacheKeyInfo)
    (cacheHit : Option String) : CoreState :=
  if keyInfo.paths.length = 0 then st
  else
    match cacheHit with
    | some h =>
      if h = "" then
        saveState (saveState st "npm-cache-hit" "false") "npm-cache-key" keyInfo.key
      else
        saveState (saveState st "npm-cache-hit" "true") "npm-cache-key" keyInfo.key
    | none =>
      saveState (saveState st "npm-cache-hit" "false") "npm-cache-key" keyInfo.key

/-- Embeds the decision structure of CacheManager.saveComposerCache: the result is
true exactly when the cache.saveCache primitive is invoked. The keyInfo argument
is the freshly recomputed key info and fsExists the filesystem predicate behind
filterExistingPaths. -/
def saveComposerCacheInvokes (st : CoreState) (keyInfo : CacheKeyInfo)
    (fsExists : String → Bool) : Bool :=
  if getState st "composer-cache-hit" = "true" then false
  else if getState st "composer-cache-key" = "" then false
  else
    let existingPaths := keyInfo.paths.filter fsExists
    if existingPaths.length = 0 then false
    else true

/-- Embeds the decision structure of CacheManager.saveNpmCache. -/
def saveNpmCacheInvokes (st : CoreState) (keyInfo : CacheKeyInfo)
    (fsExists : String → Bool) : Bool :=
  if getState st "npm-cache-hit" = "true" then false
  else if getState st "npm-cache-key" = "" then false
  else
    let existingPaths := keyInfo.paths.filter fsExists
    if existingPaths.length = 0 then false
    else true

/- ===== Config resolver (src/config/resolver.ts) ===== -/

/-- The CONFIG_FILENAMES table from src/config/resolver.ts. -/
def CONFIG_FILENAMES : ToolName → List String
  | .phpstan => ["phpstan.neon", "phpstan.neon.dist"]
  | .phpmd => ["phpmd.xml", "phpmd.xml.dist"]
  | .phpCsFixer => [".php-cs-fixer.php", ".php-cs-fixer.dist.php"]
  | .eslint => [".eslintrc.json", ".eslintrc.js", ".eslintrc.yml", "eslint.config.js"]
  | .stylelint => [".stylelintrc.json", ".stylelintrc.js", "stylelint.config.js"]
  | .editorconfig => [".editorconfig"]
  | .composerNormalize => ["composer.json"]
  | .typo3Rector => ["rector.php"]

/-- The DEFAULT_CONFIGS table from src/config/resolver.ts; dirname models the
module directory __dirname. -/
def DEFAULT_CONFIGS (dirname : String) : ToolName → String
  | .phpstan => dirname ++ "/defaults/phpstan.neon"
  | .phpmd => dirname ++ "/defaults/phpmd.xml"
  | .phpCsFixer => dirname ++ "/defaults/.php-cs-fixer.php"
  | .eslint => dirname ++ "/defaults/.eslintrc.json"
  | .stylelint => dirname ++ "/defaults/.stylelintrc.json"
  | .editorconfig => ""
  | .composerNormalize => ""
  | .typo3Rector => ""

/-- Embeds the priority-2 loop of resolveConfig: return the first conventional
file that exists inside the working directory. resolvePath models node
path.resolve restricted to the two-argument calls of the source. -/
def findRepoConfig (fsExists : String → Bool) (resolvePath : String → String → String)
    (workingDirectory : String) : List String → Option String
  | [] => none
  | f :: rest =>
    if fsExists (resolvePath workingDirectory f) then some (resolvePath workingDirectory f)
    else findRepoConfig fsExists resolvePath workingDirectory rest

/-- Embeds resolveConfig from src/config/resolver.ts. A customConfigPath of some ""
is falsy in the source and skips priority 1, as does none. -/
def resolveConfig (fsExists : String → Bool) (resolvePath : String → String → String)
    (dirname : String) (tool : ToolName) (customConfigPath : Option String)
    (workingDirectory : String) : Option String :=
  let fromCustom :=
    match customConfigPath with
    | some c =>
      if c = "" then none
      else if fsExists (resolvePath workingDirectory c) then some (resolvePath workingDirectory c)
      else none
    | none => none
  match fromCustom with
  | some p => some p
  | none =>
    match findRepoConfig fsExists resolvePath workingDirectory (CONFIG_FILENAMES tool) with
    | some p => some p
    | none =>
      let d := DEFAULT_CONFIGS dirname tool
      if d ≠ "" ∧ fsExists d = true then some d else none

/- ===== Shared text helpers for the runners ===== -/

/-- JavaScript regex whitespace over the ASCII range used by the sources. -/
def jsWhitespace (c : Char) : Bool :=
  c == ' ' || c == '\t' || c == '\n' || c == '\r' || c == '\x0b' || c == '\x0c'

/-- Substring test on character lists, models the JavaScript String.includes. -/
def containsSub (pat : List Char) : List Char → Bool
  | [] => pat.isEmpty
  | c :: rest => pat.isPrefixOf (c :: rest) || containsSub pat rest

/-- Models s.includes(pat) for JavaScript strings. -/
def strContains (s pat : String) : Bool := containsSub pat.data s.data

/-- Splitter on a separator character by structural recursion on the characters;
the accumulator holds the reversed current piece. -/
def splitOnCharGo (sep : Char) (acc : List Char) : List Char → List String
  | [] => [String.mk acc.reverse]
  | c :: rest =>
    if c = sep then String.mk acc.reverse :: splitOnCharGo sep [] rest
    else splitOnCharGo sep (c :: acc) rest

/-- Models the JavaScript split on the newline separator used by the runners. -/
def splitLines (s : String) : List String := splitOnCharGo '\n' [] s.data

/-- Models the JavaScript String.trim over the ASCII whitespace range. -/
def jsTrim (s : String) : String :=
  String.mk (((s.data.dropWhile jsWhitespace).reverse.dropWhile jsWhitespace).reverse)

/-- Decimal value of a digit list, models parseInt on an all-digit match. -/
def natOfDigits (ds : List Char) : Nat :=
  ds.foldl (fun n c => n * 10 + (c.toNat - 48)) 0

/- ===== TYPO3 Rector runner (src/runners/typo3-rector.ts) ===== -/

/-- One diff entry of the Rector JSON output. -/
structure RectorDiff where
  message : Option String
  rector_class : Option String
deriving Repr

/-- One file entry of the Rector JSON output. -/
structure RectorFileDiff where
  file : String
  diffs : Option (List RectorDiff)
deriving Repr

/-- Totals block of the Rector JSON output. -/
structure RectorTotals where
  changed_files : Int
deriving Repr

/-- Shape of the parsed Rector JSON output used by the runner. -/
structure RectorOutput where
  totals : Option RectorTotals
  file_diffs : Option (List RectorFileDiff)
deriving Repr

/-- Issues extracted from well-formed Rector JSON, embedding the loop of
Typo3RectorRunner.run; empty strings are falsy in the source fallbacks. -/
def rectorJsonIssues (output : RectorOutput) : List Issue :=
  match output.totals with
  | none => []
  | some t =>
    if t.changed_files > 0 then
      match output.file_diffs with
      | none => []
      | some fds =>
        fds.flatMap (fun fd =>
          match fd.diffs with
          | some ds =>
            if ds.length > 0 then
              ds.map (fun d =>
                { file := fd.file, line := 1, column := none, severity := Severity.warning,
                  message := "Rector suggests changes: " ++
                    (match d.message with
                     | some m => if m = "" then "Code can be refactored" else m
                     | none => "Code can be refactored"),
                  rule := some (match d.rector_class with
                     | some rc => if rc = "" then "typo3-rector" else rc
                     | none => "typo3-rector") })
            else
              [{ file := fd.file, line := 1, column := none, severity := Severity.warning,
                 message := "File has refactoring opportunities",
                 rule := some "typo3-rector" }]
          | none =>
            [{ file := fd.file, line := 1, column := none, severity := Severity.warning,
               message := "File has refactoring opportunities",
               rule := some "typo3-rector" }])
    else []

/-- Test for the pattern of one-or-more digits after optional leading whitespace,
followed by a closing parenthesis, anchored at the line start; this is the
numbered-line test of the Rector text fallback. -/
def matchesNumParen (line : String) : Bool :=
  let rest := line.data.dropWhile jsWhitespace
  let digits := rest.takeWhile Char.isDigit
  let after := rest.drop digits.length
  !digits.isEmpty && after.head? == some ')'

/-- True when the list ends with the four characters of the .php extension. -/
def endsWithPhpExt (l : List Char) : Bool :=
  [ '.', 'p', 'h', 'p' ].isSuffixOf l

/-- Longest prefix of the run with the given length bound that is at least five
characters long and ends in .php; this realizes the greedy backtracking of the
non-whitespace-run-then-.php pattern of the Rector text fallback. -/
def phpPrefixSearch (run : List Char) : Nat → Option (List Char)
  | 0 => none
  | Nat.succ k =>
    if decide (5 ≤ Nat.succ k) && endsWithPhpExt (run.take (Nat.succ k)) then
      some (run.take (Nat.succ k))
    else phpPrefixSearch run k

/-- Leftmost match of the file-path pattern of the Rector text fallback: scan
start positions left to right, and at each non-whitespace position take the
longest prefix of the non-whitespace run that ends in .php. -/
def firstPhpMatchGo : List Char → Option String
  | [] => none
  | c :: rest =>
    if jsWhitespace c then firstPhpMatchGo rest
    else
      match phpPrefixSearch ((c :: rest).takeWhile (fun d => !jsWhitespace d))
          ((c :: rest).takeWhile (fun d => !jsWhitespace d)).length with
      | some m => some (String.mk m)
      | none => firstPhpMatchGo rest

/-- Models line.match on the file-path regular expression of the Rector fallback. -/
def firstPhpMatch (line : String) : Option String := firstPhpMatchGo line.data

/-- Embeds the degraded-mode text parsing of Typo3RectorRunner.run used when JSON
parsing fails. -/
def rectorFallbackIssues (stdout : String) : List Issue :=
  (splitLines stdout).flatMap (fun line =>
    if strContains line "[FILE]" || matchesNumParen line then
      match firstPhpMatch line with
      | some f =>
        [{ file := f, line := 1, column := none, severity := Severity.warning,
           message := "Rector suggests refactoring for this file",
           rule := some "typo3-rector" }]
      | none => []
    else [])

/-- Embeds Typo3RectorRunner.run. The parse argument models JSON.parse followed by
reading the expected shape; none models a thrown parse error, which triggers the
text fallback in the source. -/
def typo3RectorRun (parse : String → Option RectorOutput) (exec : ExecResult) : ToolResult :=
  let issues :=
    if exec.stdout = "" then []
    else
      match parse exec.stdout with
      | some output => rectorJsonIssues output
      | none => rectorFallbackIssues exec.stdout
  { tool := "TYPO3 Rector", success := exec.exitCode == 0, issues := issues,
    rawOutput := exec.stdout ++ exec.stderr }

/- ===== PHPStan runner (src/runners/phpstan.ts) ===== -/

/-- One message of the PHPStan JSON output, from src/types.ts. -/
structure PHPStanMessage where
  message : String
  line : Nat
  column : Option Nat
deriving Repr

/-- Per-file data of the PHPStan JSON output, from src/types.ts. -/
structure PHPStanFileData where
  messages : List PHPStanMessage
deriving Repr

/-- Parsed PHPStan JSON output, from src/types.ts; the files record is modelled as
an ordered association list following Object.entries. -/
structure PHPStanOutput where
  files : Option (List (String × PHPStanFileData))
deriving Repr

/-- Issues extracted from parsed PHPStan output; a zero line is falsy and defaults
to one in the source. -/
def phpstanIssues (output : PHPStanOutput) : List Issue :=
  match output.files with
  | none => []
  | some files =>
    files.flatMap (fun fd =>
      fd.2.messages.map (fun m =>
        { file := fd.1, line := if m.line = 0 then 1 else m.line, column := m.column,
          severity := Severity.error, message := m.message, rule := some "phpstan" }))

/-- Embeds PHPStanRunner.run; the parse argument models JSON.parse, none models a
thrown parse error which the source catches with a warning. -/
def phpstanRun (parse : String → Option PHPStanOutput) (exec : ExecResult) : ToolResult :=
  let issues :=
    if exec.stdout = "" then []
    else
      match parse exec.stdout with
      | some output => phpstanIssues output
      | none => []
  { tool := "PHPStan", success := exec.exitCode == 0, issues := issues,
    rawOutput := exec.stdout ++ exec.stderr }

/- ===== ESLint runner (src/runners/eslint.ts) ===== -/

/-- One message of the ESLint JSON output. -/
structure ESLintMessage where
  line : Nat
  column : Option Nat
  severity : Int
  message : String
  ruleId : Option String
deriving Repr

/-- Per-file data of the ESLint JSON output. -/
structure ESLintFileData where
  filePath : String
  messages : Option (List ESLintMessage)
deriving Repr

/-- Parsed ESLint JSON: the source checks Array.isArray and ignores anything else. -/
inductive ESLintJson
  | arr (files : List ESLintFileData)
  | nonArray
deriving Repr

/-- Issues extracted from parsed ESLint output; severity code 2 maps to error. -/
def eslintIssues : ESLintJson → List Issue
  | .nonArray => []
  | .arr files =>
    files.flatMap (fun fd =>
      match fd.messages with
      | none => []
      | some msgs =>
        msgs.map (fun m =>
          { file := fd.filePath, line := if m.line = 0 then 1 else m.line,
            column := m.column,
            severity := if m.severity == (2 : Int) then Severity.error else Severity.warning,
            message := m.message, rule := m.ruleId }))

/-- Embeds ESLintRunner.run. -/
def eslintRun (parse : String → Option ESLintJson) (exec : ExecResult) : ToolResult :=
  let issues :=
    if exec.stdout = "" then []
    else
      match parse exec.stdout with
      | some output => eslintIssues output
      | none => []
  { tool := "ESLint", success := exec.exitCode == 0, issues := issues,
    rawOutput := exec.stdout ++ exec.stderr }

/- ===== PHPMD runner (second part of src/runners/eslint.ts source file) ===== -/

/-- One violation of the PHPMD JSON output. -/
structure PHPMDViolation where
  beginLine : Nat
  beginColumn : Option Nat
  priority : Nat
  description : String
  rule : String
deriving Repr

/-- Per-file data of the PHPMD JSON output. -/
structure PHPMDFile where
  file : String
  violations : Option (List PHPMDViolation)
deriving Repr

/-- Parsed PHPMD JSON output. -/
structure PHPMDOutput where
  files : Option (List PHPMDFile)
deriving Repr

/-- Issues extracted from parsed PHPMD output; priority at most three maps to
error, and a zero beginLine defaults to one. -/
def phpmdIssues (output : PHPMDOutput) : List Issue :=
  match output.files with
  | none => []
  | some files =>
    files.flatMap (fun fd =>
      match fd.violations with
      | none => []
      | some vs =>
        vs.map (fun v =>
          { file := fd.file, line := if v.beginLine = 0 then 1 else v.beginLine,
            column := v.beginColumn,
            severity := if v.priority ≤ 3 then Severity.error else Severity.warning,
            message := v.description, rule := some v.rule }))

/-- Embeds PHPMDRunner.run. -/
def phpmdRun (parse : String → Option PHPMDOutput) (exec : ExecResult) : ToolResult :=
  let issues :=
    if exec.stdout = "" then []
    else
      match parse exec.stdout with
      | some output => phpmdIssues output
      | none => []
  { tool := "PHPMD", success := exec.exitCode == 0, issues := issues,
    rawOutput := exec.stdout ++ exec.stderr }

/- ===== Stylelint runner (src/runners/stylelint.ts) ===== -/

/-- One warning of the Stylelint JSON output. -/
structure StylelintWarning where
  line : Nat
  column : Option Nat
  severity : String
  text : String
  rule : Option String
deriving Repr

/-- Per-file data of the Stylelint JSON output. -/
structure StylelintFileData where
  source : String
  warnings : Option (List StylelintWarning)
deriving Repr

/-- Parsed Stylelint JSON: the source checks Array.isArray. -/
inductive StylelintJson
  | arr (files : List StylelintFileData)
  | nonArray
deriving Repr

/-- Issues extracted from parsed Stylelint output. -/
def stylelintIssues : StylelintJson → List Issue
  | .nonArray => []
  | .arr files =>
    files.flatMap (fun fd =>
      match fd.warnings with
      | none => []
      | some ws =>
        ws.map (fun w =>
          { file := fd.source, line := if w.line = 0 then 1 else w.line,
            column := w.column,
            severity := if w.severity = "error" then Severity.error else Severity.warning,
            message := w.text, rule := w.rule }))

/-- Embeds StylelintRunner.run. -/
def stylelintRun (parse : String → Option StylelintJson) (exec : ExecResult) : ToolResult :=
  let issues :=
    if exec.stdout = "" then []
    else
      match parse exec.stdout with
      | some output => stylelintIssues output
      | none => []
  { tool := "Stylelint", success := exec.exitCode == 0, issues := issues,
    rawOutput := exec.stdout ++ exec.stderr }

/- ===== PHP-CS-Fixer runner (src/runners/php-cs-fixer.ts) ===== -/

/-- Per-file data of the PHP-CS-Fixer JSON output; diff is the truthiness-tested
diff string and appliedFixers the optional fixer name list. -/
structure PHPCSFixerFileData where
  name : String
  diff : Option String
  appliedFixers : Option (List String)
deriving Repr

/-- Parsed PHP-CS-Fixer JSON output. -/
structure PHPCSFixerOutput where
  files : Option (List PHPCSFixerFileData)
deriving Repr

/-- Issues extracted from parsed PHP-CS-Fixer output; an empty joined fixer list is
falsy and falls back to the generic text. -/
def phpCsFixerIssues (output : PHPCSFixerOutput) : List Issue :=
  match output.files with
  | none => []
  | some files =>
    files.flatMap (fun fd =>
      match fd.diff with
      | some d =>
        if d = "" then []
        else
          [{ file := fd.name, line := 1, column := none, severity := Severity.warning,
             message := "Code style issues found. " ++
               (match fd.appliedFixers with
                | some fixers =>
                  if String.intercalate ", " fixers = "" then "See diff for details"
                  else String.intercalate ", " fixers
                | none => "See diff for details"),
             rule := some "php-cs-fixer" }]
      | none => [])

/-- Embeds PHPCSFixerRunner.run. -/
def phpCsFixerRun (parse : String → Option PHPCSFixerOutput) (exec : ExecResult) : ToolResult :=
  let issues :=
    if exec.stdout = "" then []
    else
      match parse exec.stdout with
      | some output => phpCsFixerIssues output
      | none => []
  { tool := "PHP-CS-Fixer", success := exec.exitCode == 0, issues := issues,
    rawOutput := exec.stdout ++ exec.stderr }

/- ===== Composer Normalize runner (second part of src/runners/php-cs-fixer.ts source file) ===== -/

/-- Embeds ComposerNormalizeRunner.run; issues are derived from substring tests on
the combined output when the exit code is non-zero. -/
def composerNormalizeRun (configPath : Option String) (exec : ExecResult) : ToolResult :=
  let composerPath :=
    match configPath with
    | some c => if c = "" then "composer.json" else c
    | none => "composer.json"
  let output := exec.stdout ++ exec.stderr
  let issues :=
    if exec.exitCode ≠ 0 then
      if exec.stdout ≠ "" ∨ exec.stderr ≠ "" then
        (if strContains output "is not normalized" ||
            strContains output "Successfully normalized" then
          [{ file := composerPath, line := 1, column := none, severity := Severity.warning,
             message := "composer.json is not normalized. Run \"composer normalize\" to fix.",
             rule := some "composer-normalize" }]
         else []) ++
        (if strContains output "--- original" || strContains output "+++ normalized" then
          [{ file := composerPath, line := 1, column := none, severity := Severity.warning,
             message := "composer.json has formatting or ordering issues. See diff for details.",
             rule := some "composer-normalize" }]
         else [])
      else
        [{ file := composerPath, line := 1, column := none, severity := Severity.warning,
           message := "composer.json requires normalization",
           rule := some "composer-normalize" }]
    else []
  { tool := "Composer Normalize", success := exec.exitCode == 0, issues := issues,
    rawOutput := exec.stdout ++ exec.stderr }

/- ===== EditorConfig runner (src/runners/editorconfig.ts) ===== -/

/-- Backtracking matcher for the line pattern of the EditorConfig runner: a lazy
nonempty group, a colon, a digit group, a colon, optional whitespace, and a
nonempty message group, anchored at both ends. The accumulator holds the
reversed characters consumed by the lazy group so far. -/
def ecLineMatchGo (acc : List Char) : List Char → Option (String × Nat × String)
  | [] => none
  | c :: rest =>
    if c = ':' ∧ acc ≠ [] then
      let digits := rest.takeWhile Char.isDigit
      let afterDigits := rest.drop digits.length
      if digits ≠ [] ∧ afterDigits.head? = some ':' then
        let afterColon := afterDigits.tail
        let ws := afterColon.takeWhile jsWhitespace
        let msg := afterColon.drop ws.length
        if msg ≠ [] then
          some (String.mk acc.reverse, natOfDigits digits, String.mk msg)
        else
          match ws.getLast? with
          | some w => some (String.mk acc.reverse, natOfDigits digits, String.mk [w])
          | none => ecLineMatchGo (c :: acc) rest
      else ecLineMatchGo (c :: acc) rest
    else ecLineMatchGo (c :: acc) rest

/-- Models line.match on the filename-line-message regular expression of the
EditorConfig runner. -/
def ecLineMatch (line : String) : Option (String × Nat × String) :=
  ecLineMatchGo [] line.data

/-- Extension alternatives of the EditorConfig fallback file pattern, in source
order, which a JavaScript alternation tries left to right. -/
def ecExts : List (List Char) :=
  [['p', 'h', 'p'], ['j', 's'], ['t', 's'], ['c', 's', 's'],
   ['s', 'c', 's', 's'], ['h', 't', 'm', 'l'], ['j', 's', 'o', 'n'],
   ['y', 'a', 'm', 'l'], ['y', 'm', 'l']]

/-- Backtracking matcher for the fallback file pattern of the EditorConfig runner:
a lazy nonempty group, a dot, and the first matching extension alternative. -/
def ecFileMatchGo (acc : List Char) : List Char → Option String
  | [] => none
  | c :: rest =>
    if c = '.' ∧ acc ≠ [] then
      match ecExts.find? (fun e => e.isPrefixOf rest) with
      | some e => some (String.mk (acc.reverse ++ '.' :: e))
      | none => ecFileMatchGo (c :: acc) rest
    else ecFileMatchGo (c :: acc) rest

/-- Embeds EditorConfigRunner.run, including the primary line pattern and the
fallback pattern guarded by the failure marker or the word error. -/
def editorconfigRun (exec : ExecResult) : ToolResult :=
  let issues :=
    if exec.stdout ≠ "" ∨ exec.stderr ≠ "" then
      (splitLines (exec.stdout ++ exec.stderr)).flatMap (fun line =>
        match ecLineMatch line with
        | some m =>
          [{ file := m.1, line := m.2.1, column := none, severity := Severity.warning,
             message := m.2.2, rule := some "editorconfig" }]
        | none =>
          if strContains line "âœ—" ||
             strContains (String.mk (line.data.map Char.toLower)) "error" then
            match ecFileMatchGo [] line.data with
            | some f =>
              [{ file := f, line := 1, column := none, severity := Severity.warning,
                 message := jsTrim line, rule := some "editorconfig" }]
            | none => []
          else [])
    else []
  { tool := "EditorConfig", success := exec.exitCode == 0, issues := issues,
    rawOutput := exec.stdout ++ exec.stderr }

/- ===== Reporter (src/reporters/github.ts) ===== -/

/-- One emitted annotation record: core.error or core.warning with its location
properties, from GitHubReporter.generateAnnotations. -/
structure AnnotationMsg where
  message : String
  file : String
  startLine : Nat
  startColumn : Option Nat
  isError : Bool
deriving DecidableEq, Repr

/-- Embeds GitHubReporter.generateAnnotations: one record per issue in order; a
zero column is falsy and its property is omitted, an empty rule is falsy and
left out of the message. -/
def generateAnnotations (results : List ToolResult) : List AnnotationMsg :=
  results.flatMap (fun result =>
    result.issues.map (fun issue =>
      { message := "[" ++ result.tool ++
          (match issue.rule with
           | some r => if r = "" then "" else " - " ++ r
           | none => "") ++ "] " ++ issue.message,
        file := issue.file,
        startLine := issue.line,
        startColumn :=
          match issue.column with
          | some c => if c = 0 then none else some c
          | none => none,
        isError := issue.severity == Severity.error }))

/-- Per-tool entry of the JSON report object built by GitHubReporter.getReport. -/
structure ToolReportEntry where
  tool : String
  success : Bool
  issueCount : Nat
  errors : Nat
  warnings : Nat
  issues : List Issue
deriving DecidableEq, Repr

/-- The JSON report object built by GitHubReporter.getReport; the JSON.stringify
serialization step is abstracted away. -/
structure Report where
  totalIssues : Nat
  results : List ToolReportEntry
deriving DecidableEq, Repr

/-- Embeds GitHubReporter.getReport. -/
def getReport (results : List ToolResult) : Report :=
  { totalIssues := results.foldl (fun sum r => sum + r.issues.length) 0,
    results := results.map (fun result =>
      { tool := result.tool,
        success := result.success,
        issueCount := result.issues.length,
        errors := (result.issues.filter (fun i => i.severity == Severity.error)).length,
        warnings := (result.issues.filter (fun i => i.severity == Severity.warning)).length,
        issues := result.issues }) }

/- ===== Orchestrator (src/main.ts) ===== -/

/-- The total issue count computed in run() of src/main.ts. -/
def totalIssues (results : List ToolResult) : Nat :=
  results.foldl (fun sum r => sum + r.issues.length) 0

/-- The status output set by run() of src/main.ts. -/
def statusOutput (results : List ToolResult) : String :=
  if totalIssues results > 0 then "failed" else "success"

/-- Final outcome of run(): core.setFailed, a warning only, or a pass message. -/
inductive RunOutcome
  | failed
  | warnedOnly
  | passed
deriving DecidableEq, Repr

/-- Embeds the final fail/warn decision of run() in src/main.ts. -/
def runOutcome (failOnErrors : Bool) (results : List ToolResult) : RunOutcome :=
  if failOnErrors = true ∧ totalIssues results > 0 then RunOutcome.failed
  else if totalIssues results > 0 then RunOutcome.warnedOnly
  else RunOutcome.passed

/-- File list passed to the runner for a tool, from the switch in runTool of
src/main.ts: the EditorConfig and Composer Normalize branches use fixed paths,
all other branches use the glob search result. -/
def toolFilePaths (tool : ToolName) (found : List String) : List String :=
  match tool with
  | .editorconfig => ["."]
  | .composerNormalize => ["composer.json"]
  | _ => found

/-- Observable outcome of runTool: the returned result, if any, and whether the
runner (and with it the external process) was invoked. -/
structure RunToolOutcome where
  result : Option ToolResult
  runnerInvoked : Bool
deriving Repr

/-- Embeds the control flow of runTool in src/main.ts after tool dispatch: the
availability gate, the zero-file short circuit, and the runner invocation. The
found argument is the glob search result and runner the dispatched tool runner. -/
def runToolModel (available : Bool) (found : List String)
    (runner : RunnerConfig → ToolResult) (tool : ToolName)
    (configPath : Option String) (workingDirectory : String) : RunToolOutcome :=
  if available = false then { result := none, runnerInvoked := false }
  else
    let filePaths := toolFilePaths tool found
    if filePaths.length = 0 then
      { result := some { tool := toolIdString tool, success := true, issues := [],
                         rawOutput := "" },
        runnerInvoked := false }
    else
      { result := some (runner { configPath := configPath, filePaths := filePaths,
                                 workingDirectory := workingDirectory }),
        runnerInvoked := true }

/- ===== Concrete fixtures used by closed statements ===== -/

/-- Issues of end-to-end scenario A of the specification: two errors and one
warning found by the first tool. -/
def scenarioAIssues : List Issue :=
  [{ file := "src/A.php", line := 10, column := some 2, severity := Severity.error,
     message := "Undefined variable", rule := some "phpstan" },
   { file := "src/B.php", line := 20, column := none, severity := Severity.error,
     message := "Type mismatch", rule := some "phpstan" },
   { file := "src/C.php", line := 5, column := none, severity := Severity.warning,
     message := "Unused import", rule := none }]

/-- Result list of end-to-end scenario A: the first tool finds three issues and
exits zero, the second finds none and exits zero. -/
def scenarioAResults : List ToolResult :=
  [{ tool := "PHPStan", success := true, issues := scenarioAIssues, rawOutput := "out" },
   { tool := "ESLint", success := true, issues := [], rawOutput := "" }]

/-- The report entry that getReport builds for the first result of scenario A. -/
def scenarioAEntry : ToolReportEntry :=
  { tool := "PHPStan", success := true, issueCount := 3, errors := 2, warnings := 1,
    issues := scenarioAIssues }

/- ===== Helper lemmas ===== -/

theorem strLe_append (a t : String) : strLe a (a ++ t) := by
  simp [strLe, String.data_append]

theorem strLe_appendThree (a b c d : String) : strLe a (a ++ b ++ c ++ d) := by
  simp [strLe, String.data_append, List.append_assoc]

theorem strLe_appendFive (a b c d e f : String) : strLe a (a ++ b ++ c ++ d ++ e ++ f) := by
  simp [strLe, String.data_append, List.append_assoc]

theorem strNe_appendTwo (a b c : String) (h : c.data ≠ []) : a ≠ a ++ b ++ c := by
  intro he
  have hlen : a.data.length = a.data.length + (b.data.length + c.data.length) := by
    have hd := congrArg String.data he
    rw [String.data_append, String.data_append, List.append_assoc] at hd
    calc a.data.length = (a.data ++ (b.data ++ c.data)).length := by rw [← hd]
    _ = a.data.length + (b.data.length + c.data.length) := by simp [List.length_append]
  have hc : c.data.length = 0 := by omega
  exact h (List.length_eq_zero.mp hc)

theorem strLt_appendTwo (a b c : String) (h : c.data ≠ []) : strLt a (a ++ b ++ c) :=
  ⟨by simp [strLe, String.data_append, List.append_assoc], strNe_appendTwo a b c h⟩

theorem findRepoConfig_eq (fsE : String → Bool) (rp : String → String → String)
    (wd : String) (files : List String) :
    findRepoConfig fsE rp wd files =
      (((files.map (rp wd)).filter (fun q => fsE q)).head?) := by
  induction files with
  | nil => rfl
  | cons f rest ih =>
    cases h : fsE (rp wd f) with
    | true => simp [findRepoConfig, List.filter_cons, h]
    | false => simp [findRepoConfig, List.filter_cons, h, ih]

theorem foldl_issues_eq (l : List ToolResult) (n : Nat) :
    l.foldl (fun sum r => sum + r.issues.length) n =
      n + (l.map (fun r => r.issues.length)).sum := by
  induction l generalizing n with
  | nil => simp
  | cons r rest ih => simp [List.foldl_cons, ih, Nat.add_assoc]

theorem severity_filter_partition (l : List Issue) :
    (l.filter (fun i => i.severity == Severity.error)).length +
      (l.filter (fun i => i.severity == Severity.warning)).length = l.length := by
  induction l with
  | nil => rfl
  | cons i rest ih =>
    cases h : i.severity <;> simp [List.filter_cons, h] <;> omega

/- ===== Claim theorems ===== -/

/-- Claim C1, amended. For the JS ecosystem the fallback restore keys form a
strictly-decreasing-specificity sequence and every fallback key is a syntactic
string prefix of the primary key, for every key-prefix input, platform value,
and lockfile state. For the Composer ecosystem the first fallback key (primary
key with the hash dropped) is a syntactic prefix of the primary key, but the
second fallback key drops the platform label instead and is not in general a
prefix of the primary key. -/
theorem cacheFallbackKeysChain (cfg : CacheConfig) (ncd ccd : Option String)
    (hashFn : String → String) (wd platform : String) (locks : NpmLockState)
    (clock : Option String) :
    (∃ k1 k2 k3,
      (generateNpmCacheKey cfg ncd hashFn wd platform locks).restoreKeys = [k1, k2, k3] ∧
      strLe k1 (generateNpmCacheKey cfg ncd hashFn wd platform locks).key ∧
      strLe k2 (generateNpmCacheKey cfg ncd hashFn wd platform locks).key ∧
      strLe k3 (generateNpmCacheKey cfg ncd hashFn wd platform locks).key ∧
      strLt k2 k1 ∧ strLt k3 k2) ∧
    (∃ c1 c2,
      (generateComposerCacheKey cfg ccd hashFn wd platform clock).restoreKeys = [c1, c2] ∧
      strLe c1 (generateComposerCacheKey cfg ccd hashFn wd platform clock).key) := by
  constructor
  · obtain ⟨pl, yl, kl⟩ := locks
    cases pl <;> cases yl <;> cases kl <;>
      exact ⟨_, _, _, rfl, strLe_append _ _, strLe_appendThree _ _ _ _,
        strLe_appendFive _ _ _ _ _ _, strLt_appendTwo _ _ _ (by decide),
        strLt_appendTwo _ _ _ (by decide)⟩
  · exact ⟨_, _, rfl, strLe_append _ _⟩

/-- Counterexample to claim C1 as stated: at key prefix deps and platform linux
with no composer.lock, the second Composer fallback restore key is
deps-composer-, which is not a syntactic prefix of the primary key
deps-linux-composer-no-lock. -/
theorem composerSecondFallbackNotAPre :
    (generateComposerCacheKey ⟨true, "deps", false, false, false, false⟩ none
        (fun s => s) "." "linux" none).restoreKeys.get? 1 = some "deps-composer-" ∧
    (generateComposerCacheKey ⟨true, "deps", false, false, false, false⟩ none
        (fun s => s) "." "linux" none).key = "deps-linux-composer-no-lock" ∧
    ¬ strLe "deps-composer-" "deps-linux-composer-no-lock" := by
  refine ⟨rfl, rfl, by decide⟩

/-- Claim C2, amended. The process is marked failed exactly when the
fail-on-errors flag is set and the total issue count is positive; the status
output, however, reports failed exactly when the total issue count is positive,
independently of the fail-on-errors flag. -/
theorem runFailureAndStatusDecision (failOnErrors : Bool) (results : List ToolResult) :
    (runOutcome failOnErrors results = RunOutcome.failed ↔
      (failOnErrors = true ∧ totalIssues results > 0)) ∧
    (statusOutput results = "failed" ↔ totalIssues results > 0) := by
  refine ⟨?_, ?_⟩
  · simp only [runOutcome]
    split_ifs with h1 h2
    · simp [h1]
    · simp [h1]
    · simp [h1]
  · simp only [statusOutput]
    split_ifs with h
    · simp [h]
    · simp [h]

/-- Counterexample to claim C2 as stated: with fail-on-errors unset and three
issues, the status output still reports failed even though the process is not
marked failed. -/
theorem statusFailedDespiteNoFailFlag :
    statusOutput scenarioAResults = "failed" ∧
    0 < totalIssues scenarioAResults ∧
    runOutcome false scenarioAResults ≠ RunOutcome.failed := by
  refine ⟨rfl, by decide, by decide⟩

/-- Claim C3. For every tool runner and every execution, the returned
ToolResult.success is true exactly when the external process exit code was
zero, for any parse outcome; in particular a run with exit code zero and a
nonempty parsed issue list still has success true. -/
theorem runnerSuccessMatchesExitCode (e : ExecResult)
    (p1 : String → Option PHPStanOutput) (p2 : String → Option ESLintJson)
    (p3 : String → Option PHPMDOutput) (p4 : String → Option StylelintJson)
    (p5 : String → Option PHPCSFixerOutput) (p6 : String → Option RectorOutput)
    (cp : Option String) :
    ((phpstanRun p1 e).success = true ↔ e.exitCode = 0) ∧
    ((eslintRun p2 e).success = true ↔ e.exitCode = 0) ∧
    ((phpmdRun p3 e).success = true ↔ e.exitCode = 0) ∧
    ((stylelintRun p4 e).success = true ↔ e.exitCode = 0) ∧
    ((phpCsFixerRun p5 e).success = true ↔ e.exitCode = 0) ∧
    ((typo3RectorRun p6 e).success = true ↔ e.exitCode = 0) ∧
    ((editorconfigRun e).success = true ↔ e.exitCode = 0) ∧
    ((composerNormalizeRun cp e).success = true ↔ e.exitCode = 0) ∧
    (phpstanRun (fun _ => some ⟨some [("a.php", ⟨[⟨"m", 3, none⟩]⟩)]⟩)
        ⟨0, "j", ""⟩).success = true ∧
    (phpstanRun (fun _ => some ⟨some [("a.php", ⟨[⟨"m", 3, none⟩]⟩)]⟩)
        ⟨0, "j", ""⟩).issues ≠ [] := by
  refine ⟨?_, ?_, ?_, ?_, ?_, ?_, ?_, ?_, rfl, by decide⟩ <;>
    simp [phpstanRun, eslintRun, phpmdRun, stylelintRun, phpCsFixerRun,
      typo3RectorRun, editorconfigRun, composerNormalizeRun]

/-- Claim C4. Config resolution priority: an existing custom path wins; a
nonexistent custom path falls through to the same result as no custom path; and
without a custom path the result is the first existing conventional file in the
working directory, else the bundled default when it is nonempty and exists on
disk, else none. -/
theorem resolveConfigPriorityOrder (fsE : String → Bool)
    (rp : String → String → String) (dn : String) (tool : ToolName) (wd c : String)
    (hc : c ≠ "") :
    (fsE (rp wd c) = true →
      resolveConfig fsE rp dn tool (some c) wd = some (rp wd c)) ∧
    (fsE (rp wd c) = false →
      resolveConfig fsE rp dn tool (some c) wd = resolveConfig fsE rp dn tool none wd) ∧
    (resolveConfig fsE rp dn tool none wd =
      match (((CONFIG_FILENAMES tool).map (rp wd)).filter (fun q => fsE q)).head? with
      | some q => some q
      | none =>
        if DEFAULT_CONFIGS dn tool ≠ "" ∧ fsE (DEFAULT_CONFIGS dn tool) = true then
          some (DEFAULT_CONFIGS dn tool)
        else none) := by
  refine ⟨?_, ?_, ?_⟩
  · intro h
    simp [resolveConfig, hc, h]
  · intro h
    simp [resolveConfig, hc, h]
  · simp [resolveConfig, findRepoConfig_eq]

/-- Witness for claim C4 at a concrete filesystem: the custom path mycfg does
not exist, so resolution falls through to the no-custom-path behavior. -/
theorem resolveConfigPriorityOrder_witness :
    resolveConfig (fun s => s == "wd/phpstan.neon.dist") (fun a b => a ++ "/" ++ b)
      "dir" ToolName.phpstan (some "mycfg") "wd" =
    resolveConfig (fun s => s == "wd/phpstan.neon.dist") (fun a b => a ++ "/" ++ b)
      "dir" ToolName.phpstan none "wd" :=
  (resolveConfigPriorityOrder (fun s => s == "wd/phpstan.neon.dist")
    (fun a b => a ++ "/" ++ b) "dir" ToolName.phpstan "wd" "mycfg" (by decide)).2.1
    (by decide)

/-- Claim C5. For each ecosystem, when the persisted state records a restore
cache hit, the save phase never invokes the underlying cache save primitive. -/
theorem saveSkippedAfterCacheHit (st : CoreState) (ci ni : CacheKeyInfo)
    (fs : String → Bool) :
    (getState st "composer-cache-hit" = "true" →
      saveComposerCacheInvokes st ci fs = false) ∧
    (getState st "npm-cache-hit" = "true" → saveNpmCacheInvokes st ni fs = false) := by
  constructor <;> intro h <;>
    simp [saveComposerCacheInvokes, saveNpmCacheInvokes, h]

/-- Witness for claim C5 on a concrete state with recorded hits for both
ecosystems and an existing cache path. -/
theorem saveSkippedAfterCacheHit_witness :
    saveComposerCacheInvokes
        [("composer-cache-hit", "true"), ("npm-cache-hit", "true")]
        { key := "k", restoreKeys := [], paths := ["p"] } (fun _ => true) = false ∧
    saveNpmCacheInvokes
        [("composer-cache-hit", "true"), ("npm-cache-hit", "true")]
        { key := "k", restoreKeys := [], paths := ["p"] } (fun _ => true) = false :=
  ⟨(saveSkippedAfterCacheHit
      [("composer-cache-hit", "true"), ("npm-cache-hit", "true")]
      { key := "k", restoreKeys := [], paths := ["p"] }
      { key := "k", restoreKeys := [], paths := ["p"] } (fun _ => true)).1 (by decide),
   (saveSkippedAfterCacheHit
      [("composer-cache-hit", "true"), ("npm-cache-hit", "true")]
      { key := "k", restoreKeys := [], paths := ["p"] }
      { key := "k", restoreKeys := [], paths := ["p"] } (fun _ => true)).2 (by decide)⟩

/-- Claim C6. For any requested tool whose glob file search is used and yields
zero matching files, runTool returns the trivial successful result and never
invokes the runner, hence no external analysis process. -/
theorem zeroFilesShortCircuit (runner : RunnerConfig → ToolResult) (cp : Option String)
    (wd : String) (tool : ToolName) (h1 : tool ≠ ToolName.editorconfig)
    (h2 : tool ≠ ToolName.composerNormalize) :
    runToolModel true [] runner tool cp wd =
      { result := some { tool := toolIdString tool, success := true, issues := [],
                         rawOutput := "" },
        runnerInvoked := false } := by
  cases tool <;> first | rfl | exact absurd rfl h1 | exact absurd rfl h2

/-- Witness for claim C6 with the phpstan tool and a runner that would report a
failure if it were invoked. -/
theorem zeroFilesShortCircuit_witness :
    runToolModel true []
      (fun _ => { tool := "PHPStan", success := false, issues := [], rawOutput := "x" })
      ToolName.phpstan none "." =
    { result := some { tool := "phpstan", success := true, issues := [], rawOutput := "" },
      runnerInvoked := false } :=
  zeroFilesShortCircuit
    (fun _ => { tool := "PHPStan", success := false, issues := [], rawOutput := "x" })
    none "." ToolName.phpstan (by decide) (by decide)

/-- Claim C7. The JS-ecosystem cache key selects the lockfile preferring pnpm,
then yarn, then npm, the first one found determining both hash and
package-manager label, and with no lockfile uses the sentinel hash no-lock with
label npm; the primary key composes prefix, platform, package manager and hash. -/
theorem npmLockfileSelectionOrder (cfg : CacheConfig) (dir : Option String)
    (hashFn : String → String) (wd platform : String) (c y p : String)
    (yo po : Option String) :
    (generateNpmCacheKey cfg dir hashFn wd platform
        { pnpmLock := some c, yarnLock := yo, packageLock := po }).key =
      cfg.keyPrefixStr ++ "-" ++ platform ++ "-" ++ "pnpm" ++ "-" ++ hashFn c ∧
    (generateNpmCacheKey cfg dir hashFn wd platform
        { pnpmLock := none, yarnLock := some y, packageLock := po }).key =
      cfg.keyPrefixStr ++ "-" ++ platform ++ "-" ++ "yarn" ++ "-" ++ hashFn y ∧
    (generateNpmCacheKey cfg dir hashFn wd platform
        { pnpmLock := none, yarnLock := none, packageLock := some p }).key =
      cfg.keyPrefixStr ++ "-" ++ platform ++ "-" ++ "npm" ++ "-" ++ hashFn p ∧
    (generateNpmCacheKey cfg dir hashFn wd platform
        { pnpmLock := none, yarnLock := none, packageLock := none }).key =
      cfg.keyPrefixStr ++ "-" ++ platform ++ "-" ++ "npm" ++ "-" ++ "no-lock" :=
  ⟨rfl, rfl, rfl, rfl⟩

/-- Claim C8. The total issue count of run() equals the totalIssues field of the
JSON report and the number of emitted annotations, and all equal the sum of the
per-result issue list lengths. -/
theorem totalIssuesConsistent (results : List ToolResult) :
    totalIssues results = (getReport results).totalIssues ∧
    totalIssues results = (generateAnnotations results).length ∧
    totalIssues results = (results.map (fun r => r.issues.length)).sum := by
  have h3 : totalIssues results = (results.map (fun r => r.issues.length)).sum := by
    simpa using foldl_issues_eq results 0
  refine ⟨rfl, ?_, h3⟩
  rw [h3]
  simp [generateAnnotations, List.length_flatMap, Function.comp_def]

/-- Claim C9, amended. For every tool whose external process exits zero and
whose stdout fails to parse as the expected JSON, the parse failure is caught:
the PHPStan, ESLint, PHPMD, Stylelint and PHP-CS-Fixer runners yield success
true with zero issues, while the TYPO3 Rector runner yields success true and
falls back to line-oriented text scraping of stdout, which can yield issues. -/
theorem parseFailureIssueBehavior (e : ExecResult)
    (p1 : String → Option PHPStanOutput) (p2 : String → Option ESLintJson)
    (p3 : String → Option PHPMDOutput) (p4 : String → Option StylelintJson)
    (p5 : String → Option PHPCSFixerOutput) (p6 : String → Option RectorOutput)
    (he : e.exitCode = 0) :
    (p1 e.stdout = none →
      (phpstanRun p1 e).success = true ∧ (phpstanRun p1 e).issues = []) ∧
    (p2 e.stdout = none →
      (eslintRun p2 e).success = true ∧ (eslintRun p2 e).issues = []) ∧
    (p3 e.stdout = none →
      (phpmdRun p3 e).success = true ∧ (phpmdRun p3 e).issues = []) ∧
    (p4 e.stdout = none →
      (stylelintRun p4 e).success = true ∧ (stylelintRun p4 e).issues = []) ∧
    (p5 e.stdout = none →
      (phpCsFixerRun p5 e).success = true ∧ (phpCsFixerRun p5 e).issues = []) ∧
    (p6 e.stdout = none →
      (typo3RectorRun p6 e).success = true ∧
      (typo3RectorRun p6 e).issues =
        (if e.stdout = "" then [] else rectorFallbackIssues e.stdout)) := by
  refine ⟨?_, ?_, ?_, ?_, ?_, ?_⟩ <;> intro hp <;>
    exact ⟨by simp [phpstanRun, eslintRun, phpmdRun, stylelintRun, phpCsFixerRun,
        typo3RectorRun, he],
      by simp [phpstanRun, eslintRun, phpmdRun, stylelintRun, phpCsFixerRun,
        typo3RectorRun, hp]⟩

/-- Witness for claim C9 at exit code zero with unparseable output for the
PHPStan and ESLint runners. -/
theorem parseFailureIssueBehavior_witness :
    (phpstanRun (fun _ => none)
      { exitCode := 0, stdout := "not json", stderr := "" }).issues = [] ∧
    (eslintRun (fun _ => none)
      { exitCode := 0, stdout := "not json", stderr := "" }).issues = [] :=
  ⟨((parseFailureIssueBehavior { exitCode := 0, stdout := "not json", stderr := "" }
      (fun _ => none) (fun _ => none) (fun _ => none) (fun _ => none) (fun _ => none)
      (fun _ => none) rfl).1 rfl).2,
   ((parseFailureIssueBehavior { exitCode := 0, stdout := "not json", stderr := "" }
      (fun _ => none) (fun _ => none) (fun _ => none) (fun _ => none) (fun _ => none)
      (fun _ => none) rfl).2.1 rfl).2⟩

/-- Counterexample to claim C9 as stated: the TYPO3 Rector runner, on exit code
zero with stdout that fails JSON parsing but matches the numbered-line text
pattern, produces a nonempty issue list instead of zero issues. -/
theorem rectorFallbackYieldsIssues :
    (typo3RectorRun (fun _ => none)
      { exitCode := 0, stdout := "1) app.php", stderr := "" }).success = true ∧
    (typo3RectorRun (fun _ => none)
      { exitCode := 0, stdout := "1) app.php", stderr := "" }).issues =
      [{ file := "app.php", line := 1, column := none, severity := Severity.warning,
         message := "Rector suggests refactoring for this file",
         rule := some "typo3-rector" }] := by
  refine ⟨rfl, by decide⟩

/-- Claim C10. In the report built by getReport, every per-tool entry satisfies
errors plus warnings equals issueCount, because every severity is either error
or warning. -/
theorem reportSeverityCountsPartition (results : List ToolResult) :
    ∀ e ∈ (getReport results).results, e.errors + e.warnings = e.issueCount := by
  intro e he
  simp only [getReport, List.mem_map] at he
  obtain ⟨r, _, rfl⟩ := he
  exact severity_filter_partition r.issues

/-- Witness for claim C10 on the scenario A report: the first entry has two
errors and one warning out of three issues. -/
theorem reportSeverityCountsPartition_witness :
    scenarioAEntry.errors + scenarioAEntry.warnings = scenarioAEntry.issueCount :=
  reportSeverityCountsPartition scenarioAResults scenarioAEntry (by decide)

end CodeQuality
